import Mathlib

set_option maxHeartbeats 1000000

/-!
Shallow embedding of `src/yusb.c`, a Yorick binding to libusb.

Modelling conventions:
* Machine integers of the C code become `Int`; where the C source masks a
  value to a native width (`x & 0xff`, `x & 0xffff`, `x & 0xffffffffL`) the
  embedding uses `x % 2^w` (`Int.emod`, which agrees with two's-complement
  bitwise AND against an all-ones mask).
* Calls into libusb are modelled by an explicit environment record giving
  the native return values; every native call an entry point issues is
  recorded in the outcome, so "no native call was issued" is expressible.
* `y_error` is noreturn in C: an outcome whose `raised` field is `some msg`
  pushes no result (`pushedRet = none` past that point).
* The Yorick stack/global machinery is modelled only as far as observable:
  the pushed result, the accumulator global written via `yput_global`, and
  the raised message.
-/

/-- libusb status codes, as defined by `enum libusb_error` in `libusb.h`. -/
def LIBUSB_SUCCESS : Int := 0

def LIBUSB_ERROR_IO : Int := -1

def LIBUSB_ERROR_INVALID_PARAM : Int := -2

def LIBUSB_ERROR_ACCESS : Int := -3

def LIBUSB_ERROR_NO_DEVICE : Int := -4

def LIBUSB_ERROR_NOT_FOUND : Int := -5

def LIBUSB_ERROR_BUSY : Int := -6

def LIBUSB_ERROR_TIMEOUT : Int := -7

def LIBUSB_ERROR_OVERFLOW : Int := -8

def LIBUSB_ERROR_PIPE : Int := -9

def LIBUSB_ERROR_INTERRUPTED : Int := -10

def LIBUSB_ERROR_NO_MEM : Int := -11

def LIBUSB_ERROR_NOT_SUPPORTED : Int := -12

def LIBUSB_ERROR_OTHER : Int := -99

/-- `get_error_name` (yusb.c:84): symbolic name for a status code, generated
from `ERROR_TABLE`. -/
def get_error_name (code : Int) : String :=
  if code = LIBUSB_SUCCESS then "LIBUSB_SUCCESS"
  else if code = LIBUSB_ERROR_IO then "LIBUSB_ERROR_IO"
  else if code = LIBUSB_ERROR_INVALID_PARAM then "LIBUSB_ERROR_INVALID_PARAM"
  else if code = LIBUSB_ERROR_ACCESS then "LIBUSB_ERROR_ACCESS"
  else if code = LIBUSB_ERROR_NO_DEVICE then "LIBUSB_ERROR_NO_DEVICE"
  else if code = LIBUSB_ERROR_NOT_FOUND then "LIBUSB_ERROR_NOT_FOUND"
  else if code = LIBUSB_ERROR_BUSY then "LIBUSB_ERROR_BUSY"
  else if code = LIBUSB_ERROR_TIMEOUT then "LIBUSB_ERROR_TIMEOUT"
  else if code = LIBUSB_ERROR_OVERFLOW then "LIBUSB_ERROR_OVERFLOW"
  else if code = LIBUSB_ERROR_PIPE then "LIBUSB_ERROR_PIPE"
  else if code = LIBUSB_ERROR_INTERRUPTED then "LIBUSB_ERROR_INTERRUPTED"
  else if code = LIBUSB_ERROR_NO_MEM then "LIBUSB_ERROR_NO_MEM"
  else if code = LIBUSB_ERROR_NOT_SUPPORTED then "LIBUSB_ERROR_NOT_SUPPORTED"
  else if code = LIBUSB_ERROR_OTHER then "LIBUSB_ERROR_OTHER"
  else "UNKNOWN"

/-- `get_error_description` (yusb.c:95): human-readable message for a status
code, generated from `ERROR_TABLE`. -/
def get_error_description (code : Int) : String :=
  if code = LIBUSB_SUCCESS then "Success (no error)"
  else if code = LIBUSB_ERROR_IO then "Input/output error."
  else if code = LIBUSB_ERROR_INVALID_PARAM then "Invalid parameter."
  else if code = LIBUSB_ERROR_ACCESS then "Access denied (insufficient permissions)"
  else if code = LIBUSB_ERROR_NO_DEVICE then "No such device (it may have been disconnected)"
  else if code = LIBUSB_ERROR_NOT_FOUND then "Entity not found."
  else if code = LIBUSB_ERROR_BUSY then "Resource busy."
  else if code = LIBUSB_ERROR_TIMEOUT then "Operation timed out."
  else if code = LIBUSB_ERROR_OVERFLOW then "Overflow."
  else if code = LIBUSB_ERROR_PIPE then "Pipe error."
  else if code = LIBUSB_ERROR_INTERRUPTED then "System call interrupted (perhaps due to signal)"
  else if code = LIBUSB_ERROR_NO_MEM then "Insufficient memory."
  else if code = LIBUSB_ERROR_NOT_SUPPORTED then "Operation not supported or unimplemented on this platform."
  else if code = LIBUSB_ERROR_OTHER then "Other error."
  else "Unknown error."

/-- `failure` (yusb.c:118): builds the message passed to `y_error`. With no
reason (or an empty one) it is the bare description, otherwise
"reason [NAME]". Since `y_error` is noreturn, the embedding returns the
message and callers record it as the raised error. -/
def failure (reason : Option String) (code : Int) : String :=
  match reason with
  | none => get_error_description code
  | some r => if r = "" then get_error_description code
              else r ++ " [" ++ get_error_name code ++ "]"

/-- Behaviour of the native side for a single transfer entry-point call:
the status returned by the native transfer function, the value it stores in
`*transferred` (bulk/interrupt only), and whether the Yorick call was made
in subroutine (void) context (`yarg_subroutine()`). -/
structure TransferEnv where
  nativeRet : Int
  nativeTransferred : Int
  isSubroutine : Bool
deriving DecidableEq, Repr

/-- Arguments of one native `libusb_control_transfer` call as issued by the
binding (after masking). -/
structure CtrlCall where
  bmRequestType : Int
  bRequest : Int
  wValue : Int
  wIndex : Int
  wLength : Int
  timeout : Int
deriving DecidableEq, Repr

/-- Observable outcome of `Y_usb_control_transfer`. -/
structure CtrlOutcome where
  raised : Option String
  pushedRet : Option Int
  calls : List CtrlCall
deriving DecidableEq, Repr

/-- `Y_usb_control_transfer` (yusb.c:538). `size` is the byte size computed
by `get_data` from the buffer argument; the remaining arguments are taken in
the stack order of the C code. Note the C source masks the length argument
to 16 bits (`ygets_i(1) & 0xffff`) before the `length < 0` and
`length > size` checks. -/
def Y_usb_control_transfer (size typ request value index lengthArg timeout : Int)
    (env : TransferEnv) : CtrlOutcome :=
  let t := typ % 256
  let r := request % 256
  let v := value % 65536
  let ix := index % 65536
  let len := lengthArg % 65536
  let tmo := timeout % 4294967296
  if len < 0 then ⟨some "invalid length", none, []⟩
  else if len > size then ⟨some "length must be at most the size of the data", none, []⟩
  else
    let call : CtrlCall := ⟨t, r, v, ix, len, tmo⟩
    if env.nativeRet < 0 ∧ env.isSubroutine then
      ⟨some (failure none env.nativeRet), none, [call]⟩
    else
      ⟨none, some env.nativeRet, [call]⟩

/-- Arguments of one native bulk/interrupt transfer call as issued by
`do_transfer` (after masking and buffer slicing): endpoint, offset of the
data pointer into the buffer, requested length, timeout. -/
structure XferCall where
  endpoint : Int
  dataOffset : Int
  length : Int
  timeout : Int
deriving DecidableEq, Repr

/-- Observable outcome of `do_transfer`: raised message, pushed status,
final value bound to the caller's accumulator variable (input `accum0`
threaded through when untouched), and the native transfer calls issued. -/
structure XferOutcome where
  raised : Option String
  pushedRet : Option Int
  accum : Option Int
  calls : List XferCall
deriving DecidableEq, Repr

/-- `do_transfer` (yusb.c:575), shared body of `Y_usb_bulk_transfer` and
`Y_usb_interrupt_transfer`. `size` is the byte size from `get_data`;
`offsetArg` is `some o` when a 7th argument was supplied (argc = 7) and
`none` when argc = 6; `transferredIndex` is the `yget_ref` result for the
accumulator variable; `accum0` is that variable's prior binding. -/
def do_transfer (size endpoint length transferredIndex timeout : Int)
    (offsetArg : Option Int) (env : TransferEnv) (accum0 : Option Int) :
    XferOutcome :=
  let ep := endpoint % 256
  let tmo := timeout % 4294967296
  if length < 0 then ⟨some "invalid length", none, accum0, []⟩
  else if length > size then
    ⟨some "length must be at most the size of the data", none, accum0, []⟩
  else if transferredIndex < 0 then
    ⟨some "expecting a simple variable reference", none, accum0, []⟩
  else
    let offset := match offsetArg with
      | some o => o
      | none => 0
    let badOffset : Bool := match offsetArg with
      | some o => o < 0 || o > length
      | none => false
    if badOffset then ⟨some "invalid offset", none, accum0, []⟩
    else if length > offset then
      let call : XferCall := ⟨ep, offset, length - offset, tmo⟩
      let acc1 := if 0 ≤ transferredIndex ∧
                     (env.nativeRet = 0 ∨ env.nativeRet = LIBUSB_ERROR_TIMEOUT)
                  then some (env.nativeTransferred + offset) else accum0
      if env.nativeRet < 0 ∧ env.isSubroutine then
        ⟨some (failure none env.nativeRet), none, acc1, [call]⟩
      else
        ⟨none, some env.nativeRet, acc1, [call]⟩
    else
      ⟨none, some 0, accum0, []⟩

/-- `Y_usb_bulk_transfer` (yusb.c:640) is `do_transfer` applied to the
native bulk-transfer function; in the embedding the native function is the
environment, so the wrapper is the same function. -/
def Y_usb_bulk_transfer := do_transfer

/-- `Y_usb_interrupt_transfer` (yusb.c:645), likewise. -/
def Y_usb_interrupt_transfer := do_transfer

/-- `struct libusb_device_descriptor`, restricted to the fields yusb.c
reads. All are unsigned 8/16-bit values; the binding widens them to host
integers. `iProduct` is the product string-descriptor index; the summary
code never reads it (it prints `idProduct` instead, see `summary_strings`).
-/
structure DeviceDescriptor where
  idVendor : Nat
  idProduct : Nat
  iManufacturer : Nat
  iProduct : Nat
  iSerialNumber : Nat
deriving DecidableEq, Repr

/-- One enumerated `libusb_device` as observed through the accessors the
binding calls: `libusb_get_bus_number`, `libusb_get_port_number`,
`libusb_get_device_address`, and the descriptor that
`libusb_get_device_descriptor` would fill in. -/
structure Device where
  busNumber : Nat
  portNumber : Nat
  deviceAddress : Nat
  descriptor : DeviceDescriptor
deriving DecidableEq, Repr

/-- Native-side behaviour backing `Y_usb_open_device` and
`Y__usb_probe_devices`: the enumerated device list (so
`libusb_get_device_list` succeeds with `devices.length` entries) and the
status codes `libusb_open` / `libusb_get_device_descriptor` return for the
device at each list index. -/
structure OpenEnv where
  devices : List Device
  openResult : Nat → Int
  descResult : Nat → Int

/-- The `(bus, port)` match test of the scan loop (yusb.c:370), comparing
the widened unsigned accessors against the caller's `int` arguments. -/
def matchDev (bus port : Int) (d : Device) : Bool :=
  ((d.busNumber : Int) == bus) && ((d.portNumber : Int) == port)

/-- First device of the list matching `(bus, port)`, with its index —
the device the `for` loop of `Y_usb_open_device` stops at. -/
def findFirst (bus port : Int) : List Device → Option (Nat × Device)
  | [] => none
  | d :: ds =>
    if matchDev bus port d then some (0, d)
    else (findFirst bus port ds).map (fun p => (p.1 + 1, p.2))

/-- The `ydev_instance_t` fields observable through `ydev_extract` after a
successful open (yusb.c:281): cached bus/port/address and the descriptor
snapshot. -/
structure YDev where
  bus : Int
  port : Int
  address : Int
  descriptor : DeviceDescriptor
deriving DecidableEq, Repr

/-- `ydev_extract` (yusb.c:325): member lookup on a device handle object.
`none` models the `y_error("bad member name")` branch. The redundant
first-character guards of the C code are kept. -/
def ydev_extract (obj : YDev) (member : String) : Option Int :=
  let c := member.front
  if c = 'b' ∧ member = "bus" then some obj.bus
  else if c = 'p' ∧ member = "port" then some obj.port
  else if c = 'a' ∧ member = "address" then some obj.address
  else if c = 'v' ∧ member = "vendor" then some (obj.descriptor.idVendor : Int)
  else if c = 'p' ∧ member = "product" then some (obj.descriptor.idProduct : Int)
  else if c = 'm' ∧ member = "manufacturer" then some (obj.descriptor.iManufacturer : Int)
  else if c = 's' ∧ member = "serial" then some (obj.descriptor.iSerialNumber : Int)
  else none

/-- Observable outcome of `Y_usb_open_device`: raised message, the handle
object pushed (if any), whether nil was pushed, and the value of the global
`dev_count` at the moment the function returns or raises — 0 exactly when
the device list was freed before control left the function. -/
structure OpenOutcome where
  raised : Option String
  obj : Option YDev
  pushedNil : Bool
  devCountAtExit : Int
deriving DecidableEq, Repr

/-- `Y_usb_open_device` (yusb.c:354). Loads the device list (so `dev_count`
becomes `env.devices.length`), scans for the first `(bus, port)` match,
opens it and captures its descriptor. Mirrors the C failure paths exactly:
the `libusb_open` failure raises via `failure("failed to open device", ret)`
WITHOUT calling `free_dev_list` first, while the descriptor failure calls
`free_dev_list()` before raising. -/
def Y_usb_open_device (bus port : Int) (env : OpenEnv) : OpenOutcome :=
  let n : Int := env.devices.length
  match findFirst bus port env.devices with
  | none => ⟨none, none, true, 0⟩
  | some (i, d) =>
    if env.openResult i < 0 then
      ⟨some (failure (some "failed to open device") (env.openResult i)), none, false, n⟩
    else if env.descResult i ≠ 0 then
      ⟨some (failure (some "unable to get device descriptor") (env.descResult i)), none, false, 0⟩
    else
      ⟨none, some ⟨bus, port, (d.deviceAddress : Int), d.descriptor⟩, false, 0⟩

/-- Observable outcome of `Y__usb_probe_devices`: raised message, the 7×n
integer array pushed (row per device), whether nil was pushed, and
`dev_count` at exit (0 iff the list was freed). -/
structure ProbeOutcome where
  raised : Option String
  data : Option (List (List Int))
  pushedNil : Bool
  devCountAtExit : Int
deriving DecidableEq, Repr

/-- The probe loop body of `Y__usb_probe_devices` (yusb.c:413): fills one
7-entry row per device, or stops at the first descriptor failure. `i` is
the index of the first device of `ds` in the full list, `n` the total
count (for `devCountAtExit` on failure). -/
def probe_loop (env : OpenEnv) (n : Int) : Nat → List Device → ProbeOutcome
  | _, [] => ⟨none, some [], false, 0⟩
  | i, d :: ds =>
    if env.descResult i ≠ 0 then
      ⟨some (failure (some "unable to get device descriptor") (env.descResult i)), none, false, 0⟩
    else
      let row : List Int := [(d.busNumber : Int), (d.portNumber : Int),
        (d.deviceAddress : Int), (d.descriptor.idVendor : Int),
        (d.descriptor.idProduct : Int), (d.descriptor.iManufacturer : Int),
        (d.descriptor.iSerialNumber : Int)]
      match probe_loop env n (i + 1) ds with
      | ⟨some msg, _, _, c⟩ => ⟨some msg, none, false, c⟩
      | ⟨none, some rows, _, _⟩ => ⟨none, some (row :: rows), false, 0⟩
      | ⟨none, none, _, c⟩ => ⟨none, none, false, c⟩

/-- `Y__usb_probe_devices` (yusb.c:396). Loads the list; with a non-empty
list builds the 7×n array (freeing the list and raising at the first
descriptor failure, yusb.c:416-418); with an empty list pushes nil. The
final `free_dev_list()` (yusb.c:432) leaves `dev_count = 0` on every
non-raising path. -/
def Y__usb_probe_devices (env : OpenEnv) : ProbeOutcome :=
  if env.devices.length > 0 then probe_loop env env.devices.length 0 env.devices
  else ⟨none, none, true, 0⟩

/-- The global enumeration state of the binding: `dev_count` (ssize_t) and
a cumulative count of native `libusb_free_device_list` calls, so that
"freed the same list twice" is observable. -/
structure EnumState where
  devCount : Int
  freeCalls : Nat
deriving DecidableEq, Repr

/-- `free_dev_list` (yusb.c:134): when `dev_count > 0`, zero it and release
the list through one native free call; otherwise do nothing. -/
def free_dev_list (s : EnumState) : EnumState :=
  if s.devCount > 0 then { devCount := 0, freeCalls := s.freeCalls + 1 } else s

/-- `load_device_list` (yusb.c:142): frees any held list first (defensive
against interrupts), then stores the native enumeration result `n` in
`dev_count`; raises when `n < 0` (with `dev_count` left at `n`). -/
def load_device_list (n : Int) (s : EnumState) : EnumState × Option String :=
  let s1 := free_dev_list s
  let s2 : EnumState := { s1 with devCount := n }
  if n < 0 then (s2, some "failed to get USB devices list") else (s2, none)

/-- Native behaviour of one `libusb_get_string_descriptor_ascii` call: the
status it returns (0, a positive byte count, or a negative error) and the
buffer contents it writes (already truncated to the 256-byte buffer with
the forced null termination of yusb.c:235/452). -/
structure StringEnv where
  nativeRet : Int
  nativeStr : String
deriving DecidableEq, Repr

/-- Observable outcome of the string-resolution paths: raised message,
string result, pushed integer status (only `Y_usb_get_string`'s negative
branch), the masked indices of native string-descriptor calls issued, and
whether the device handle was closed on the way out. -/
structure StrOutcome where
  raised : Option String
  result : Option String
  pushedInt : Option Int
  nativeCalls : List Int
  handleClosed : Bool
deriving DecidableEq, Repr

/-- `get_string_descriptor` (yusb.c:185) masks the index to 8 bits
(`(index)&0xff`) before the native call. -/
def get_string_descriptor_index (index : Int) : Int := index % 256

/-- `get_string` (yusb.c:222), the summary-side resolver: index ≤ 0 yields
the placeholder "unknown" with no native call; otherwise one native call is
issued and ANY nonzero status (positive byte counts included) closes the
handle and raises via `failure(NULL, code)`; only status 0 returns the
buffered string. -/
def get_string (index : Int) (env : StringEnv) : StrOutcome :=
  if index ≤ 0 then ⟨none, some "unknown", none, [], false⟩
  else
    let calls := [get_string_descriptor_index index]
    if env.nativeRet ≠ 0 then
      ⟨some (failure none env.nativeRet), none, none, calls, true⟩
    else
      ⟨none, some env.nativeStr, none, calls, false⟩

/-- `Y_usb_get_string` (yusb.c:435): unconditionally issues the native
string-descriptor call (there is no index ≤ 0 short-circuit); a negative
status is pushed as an integer, any other status pushes the buffered
string. -/
def Y_usb_get_string (index : Int) (env : StringEnv) : StrOutcome :=
  let calls := [get_string_descriptor_index index]
  if env.nativeRet < 0 then
    ⟨none, none, some env.nativeRet, calls, false⟩
  else
    ⟨none, some env.nativeStr, none, calls, false⟩

/-- The three string resolutions of the per-device summary output
(yusb.c:266-271), in print order: the Manufacturer line resolves
`desc.iManufacturer`, the Product line resolves `desc.idProduct` (the
16-bit product ID, not the `iProduct` string index), the Serial Number
line resolves `desc.iSerialNumber`. `strs` gives the native behaviour per
requested index. -/
def summary_strings (desc : DeviceDescriptor) (strs : Int → StringEnv) :
    StrOutcome × StrOutcome × StrOutcome :=
  (get_string (desc.iManufacturer : Int) (strs (desc.iManufacturer : Int)),
   get_string (desc.idProduct : Int) (strs (desc.idProduct : Int)),
   get_string (desc.iSerialNumber : Int) (strs (desc.iSerialNumber : Int)))

/-! Theorems. -/

/-- A device of a list with no `(bus, port)` match is never found: the scan
loop of `Y_usb_open_device` falls through. -/
theorem findFirst_of_no_match (bus port : Int) (ds : List Device)
    (h : ∀ d ∈ ds, matchDev bus port d = false) :
    findFirst bus port ds = none := by
  induction ds with
  | nil => rfl
  | cons d ds ih =>
    unfold findFirst
    rw [if_neg (by simp [h d (List.mem_cons_self d ds)])]
    rw [ih (fun d2 hd2 => h d2 (List.mem_cons_of_mem d hd2))]
    rfl

/-- The device `findFirst` stops at does satisfy the `(bus, port)` match
test. -/
theorem findFirst_matches (bus port : Int) (ds : List Device) (i : Nat) (d : Device)
    (h : findFirst bus port ds = some (i, d)) :
    matchDev bus port d = true := by
  induction ds generalizing i with
  | nil => simp [findFirst] at h
  | cons d2 ds ih =>
    unfold findFirst at h
    by_cases hm : matchDev bus port d2
    · rw [if_pos hm] at h
      cases h
      exact hm
    · rw [if_neg hm] at h
      cases hfd : findFirst bus port ds with
      | none => rw [hfd] at h; simp at h
      | some p =>
        rw [hfd] at h
        simp at h
        obtain ⟨h1, h2⟩ := h
        exact ih p.1 (by rw [hfd, ← h2])

/-- C1: for every control, bulk, or interrupt transfer call whose native
result is negative (arguments valid, so the native call is reached), the
binding raises a translated host error exactly when the call was made in
subroutine (void) context; in value-producing context it instead returns
the raw negative status, and never both for the same call (a raise
suppresses the push, `y_error` being noreturn). Bulk and interrupt share
`do_transfer`, so both are covered by its conjunct. -/
theorem C1_transfer_dual_failure_convention
    (size typ request value index lengthArg timeout : Int)
    (size2 endpoint len tidx tmo2 off : Int)
    (env : TransferEnv) (accum0 : Option Int)
    (hlen : lengthArg % 65536 ≤ size)
    (hret : env.nativeRet < 0)
    (hlen2 : 0 ≤ len) (hsz2 : len ≤ size2) (htidx : 0 ≤ tidx)
    (hoff0 : 0 ≤ off) (hoff1 : off < len) :
    (Y_usb_bulk_transfer = do_transfer ∧ Y_usb_interrupt_transfer = do_transfer)
    ∧
    (((Y_usb_control_transfer size typ request value index lengthArg timeout env).raised.isSome
        = env.isSubroutine)
     ∧ (env.isSubroutine = false →
        (Y_usb_control_transfer size typ request value index lengthArg timeout env).pushedRet
          = some env.nativeRet)
     ∧ ((Y_usb_control_transfer size typ request value index lengthArg timeout env).raised.isSome
          = true →
        (Y_usb_control_transfer size typ request value index lengthArg timeout env).pushedRet
          = none))
    ∧
    (((do_transfer size2 endpoint len tidx tmo2 (some off) env accum0).raised.isSome
        = env.isSubroutine)
     ∧ (env.isSubroutine = false →
        (do_transfer size2 endpoint len tidx tmo2 (some off) env accum0).pushedRet
          = some env.nativeRet)
     ∧ ((do_transfer size2 endpoint len tidx tmo2 (some off) env accum0).raised.isSome = true →
        (do_transfer size2 endpoint len tidx tmo2 (some off) env accum0).pushedRet = none)) := by
  refine ⟨⟨rfl, rfl⟩, ?_, ?_⟩
  · have h0 : ¬ (lengthArg % 65536 < 0) := by
      have := Int.emod_nonneg lengthArg (by decide : (65536:Int) ≠ 0)
      omega
    unfold Y_usb_control_transfer
    dsimp only
    rw [if_neg h0, if_neg (by omega : ¬ lengthArg % 65536 > size)]
    by_cases hs : env.isSubroutine
    · rw [if_pos ⟨hret, hs⟩]
      simp [hs]
    · rw [if_neg (by simp [hs])]
      simp [hs]
  · unfold do_transfer
    dsimp only
    rw [if_neg (by omega : ¬ len < 0), if_neg (by omega : ¬ len > size2),
        if_neg (by omega : ¬ tidx < 0)]
    rw [if_neg (by simp; omega)]
    rw [if_pos (by omega : len > off)]
    by_cases hs : env.isSubroutine
    · rw [if_pos ⟨hret, hs⟩]
      simp [hs]
    · rw [if_neg (by simp [hs])]
      simp [hs]

/-- C1 witness: a failing transfer (status −1) at concrete arguments: in
value-producing context the status is returned; in subroutine context an
error is raised. -/
theorem C1_transfer_dual_failure_convention_witness :
    (Y_usb_control_transfer 2 0 0 0 0 1 1000 ⟨-1, 0, false⟩).pushedRet = some (-1)
    ∧ (do_transfer 4 0 2 0 1000 (some 0) ⟨-1, 0, false⟩ none).pushedRet = some (-1)
    ∧ (Y_usb_control_transfer 2 0 0 0 0 1 1000 ⟨-1, 0, true⟩).raised.isSome = true
    ∧ (do_transfer 4 0 2 0 1000 (some 0) ⟨-1, 0, true⟩ none).raised.isSome = true := by
  refine ⟨?_, ?_, ?_, ?_⟩
  · exact (C1_transfer_dual_failure_convention 2 0 0 0 0 1 1000 4 0 2 0 1000 0
      ⟨-1, 0, false⟩ none (by decide) (by decide) (by decide) (by decide) (by decide)
      (by decide) (by decide)).2.1.2.1 rfl
  · exact (C1_transfer_dual_failure_convention 2 0 0 0 0 1 1000 4 0 2 0 1000 0
      ⟨-1, 0, false⟩ none (by decide) (by decide) (by decide) (by decide) (by decide)
      (by decide) (by decide)).2.2.2.1 rfl
  · exact (C1_transfer_dual_failure_convention 2 0 0 0 0 1 1000 4 0 2 0 1000 0
      ⟨-1, 0, true⟩ none (by decide) (by decide) (by decide) (by decide) (by decide)
      (by decide) (by decide)).2.1.1
  · exact (C1_transfer_dual_failure_convention 2 0 0 0 0 1 1000 4 0 2 0 1000 0
      ⟨-1, 0, true⟩ none (by decide) (by decide) (by decide) (by decide) (by decide)
      (by decide) (by decide)).2.2.1

/-- C2: the code violates the claim on one of the covered paths. When the
native open call inside `Y_usb_open_device` fails for a matched device, the
error is raised with `dev_count` still at the loaded count: the device list
is NOT freed before the error propagates (yusb.c:375-378 has no
`free_dev_list()` before `failure`, unlike the descriptor-failure paths at
yusb.c:383-386 and yusb.c:416-418, shown here to free the list). Evaluated
at a one-device list matching `(bus, port) = (1, 2)` whose open call
returns `LIBUSB_ERROR_ACCESS`. -/
theorem C2_open_failure_leaks_device_list :
    ((Y_usb_open_device 1 2
        ⟨[⟨1, 2, 3, ⟨4, 5, 6, 7, 8⟩⟩], fun _ => LIBUSB_ERROR_ACCESS, fun _ => 0⟩).raised
      = some "failed to open device [LIBUSB_ERROR_ACCESS]")
    ∧ ((Y_usb_open_device 1 2
        ⟨[⟨1, 2, 3, ⟨4, 5, 6, 7, 8⟩⟩], fun _ => LIBUSB_ERROR_ACCESS, fun _ => 0⟩).devCountAtExit
      = 1)
    ∧ ((Y_usb_open_device 1 2
        ⟨[⟨1, 2, 3, ⟨4, 5, 6, 7, 8⟩⟩], fun _ => 0, fun _ => LIBUSB_ERROR_IO⟩).raised.isSome
      = true)
    ∧ ((Y_usb_open_device 1 2
        ⟨[⟨1, 2, 3, ⟨4, 5, 6, 7, 8⟩⟩], fun _ => 0, fun _ => LIBUSB_ERROR_IO⟩).devCountAtExit
      = 0)
    ∧ ((Y__usb_probe_devices
        ⟨[⟨1, 2, 3, ⟨4, 5, 6, 7, 8⟩⟩], fun _ => 0, fun _ => LIBUSB_ERROR_IO⟩).raised.isSome
      = true)
    ∧ ((Y__usb_probe_devices
        ⟨[⟨1, 2, 3, ⟨4, 5, 6, 7, 8⟩⟩], fun _ => 0, fun _ => LIBUSB_ERROR_IO⟩).devCountAtExit
      = 0) := by
  decide

/-- C3: for a bulk/interrupt transfer issued with starting offset strictly
below the length (arguments valid), a native status of 0 or
`LIBUSB_ERROR_TIMEOUT` stores exactly `transferred + offset` in the
caller's accumulator variable; any other status leaves the accumulator
binding unchanged. -/
theorem C3_transferred_accumulation
    (size endpoint len tidx tmo off : Int)
    (env : TransferEnv) (accum0 : Option Int)
    (hlen : 0 ≤ len) (hsz : len ≤ size) (htidx : 0 ≤ tidx)
    (hoff0 : 0 ≤ off) (hoff1 : off < len) :
    ((env.nativeRet = 0 ∨ env.nativeRet = LIBUSB_ERROR_TIMEOUT) →
      (do_transfer size endpoint len tidx tmo (some off) env accum0).accum
        = some (env.nativeTransferred + off))
    ∧ (¬(env.nativeRet = 0 ∨ env.nativeRet = LIBUSB_ERROR_TIMEOUT) →
      (do_transfer size endpoint len tidx tmo (some off) env accum0).accum = accum0) := by
  unfold do_transfer
  dsimp only
  rw [if_neg (by omega : ¬ len < 0), if_neg (by omega : ¬ len > size),
      if_neg (by omega : ¬ tidx < 0)]
  rw [if_neg (by simp; omega)]
  rw [if_pos (by omega : len > off)]
  constructor
  · intro h
    have hQ : 0 ≤ tidx ∧ (env.nativeRet = 0 ∨ env.nativeRet = LIBUSB_ERROR_TIMEOUT) :=
      ⟨htidx, h⟩
    split <;> simp [hQ]
  · intro h
    have hQ : ¬(0 ≤ tidx ∧ (env.nativeRet = 0 ∨ env.nativeRet = LIBUSB_ERROR_TIMEOUT)) := by
      tauto
    split <;> simp [hQ]

/-- C3 witness: offset 3, a successful transfer of 4 bytes updates the
accumulator to 7; a failing status (−1) leaves a prior binding of 5
unchanged. -/
theorem C3_transferred_accumulation_witness :
    (do_transfer 10 1 10 0 100 (some 3) ⟨0, 4, false⟩ none).accum = some 7
    ∧ (do_transfer 10 1 10 0 100 (some 3) ⟨-1, 4, false⟩ (some 5)).accum = some 5 := by
  constructor
  · have h := (C3_transferred_accumulation 10 1 10 0 100 3 ⟨0, 4, false⟩ none
      (by decide) (by decide) (by decide) (by decide) (by decide)).1 (Or.inl rfl)
    simpa using h
  · exact (C3_transferred_accumulation 10 1 10 0 100 3 ⟨-1, 4, false⟩ (some 5)
      (by decide) (by decide) (by decide) (by decide) (by decide)).2 (by decide)

/-- C4: a bulk/interrupt transfer whose offset equals its length (arguments
valid) returns status 0 with no raise, issues no native transfer call, and
leaves the accumulator binding untouched — both with an explicit 7th
argument `offset = length` and with the default offset 0 at length 0. -/
theorem C4_offset_eq_length_noop
    (size endpoint len tidx tmo size2 endpoint2 tidx2 tmo2 : Int)
    (env env2 : TransferEnv) (accum0 accum1 : Option Int)
    (hlen : 0 ≤ len) (hsz : len ≤ size) (htidx : 0 ≤ tidx)
    (hsz2 : 0 ≤ size2) (htidx2 : 0 ≤ tidx2) :
    do_transfer size endpoint len tidx tmo (some len) env accum0
      = ⟨none, some 0, accum0, []⟩
    ∧ do_transfer size2 endpoint2 0 tidx2 tmo2 none env2 accum1
      = ⟨none, some 0, accum1, []⟩ := by
  constructor
  · unfold do_transfer
    dsimp only
    rw [if_neg (by omega : ¬ len < 0), if_neg (by omega : ¬ len > size),
        if_neg (by omega : ¬ tidx < 0)]
    rw [if_neg (by simp; omega)]
    rw [if_neg (by omega : ¬ len > len)]
  · unfold do_transfer
    dsimp only
    rw [if_neg (by omega : ¬ (0:Int) < 0), if_neg (by omega : ¬ (0:Int) > size2),
        if_neg (by omega : ¬ tidx2 < 0)]
    rw [if_neg (by simp)]
    rw [if_neg (by omega : ¬ (0:Int) > 0)]

/-- C4 witness: offset 3 = length 3 over a 3-byte buffer is a no-op with
status 0, and so is the default-offset call at length 0. -/
theorem C4_offset_eq_length_noop_witness :
    do_transfer 3 0 3 0 50 (some 3) ⟨-1, 9, true⟩ (some 9)
      = ⟨none, some 0, some 9, []⟩
    ∧ do_transfer 8 0 0 0 50 none ⟨-1, 9, true⟩ none
      = ⟨none, some 0, none, []⟩ :=
  C4_offset_eq_length_noop 3 0 3 0 50 8 0 0 50 ⟨-1, 9, true⟩ ⟨-1, 9, true⟩ (some 9) none
    (by decide) (by decide) (by decide) (by decide) (by decide)

/-- C5 counterexample: the claim fails as stated about the supplied length.
With a nil buffer (byte size 0) and supplied length 65536 — which violates
`0 ≤ length ≤ buffer_byte_size` — `Y_usb_control_transfer` raises no
validation error and issues the native call (with the 16-bit-masked length
0), because the C code masks the length with `& 0xffff` before validating
it. -/
theorem C5_masked_length_counterexample :
    ¬((0:Int) ≤ 65536 ∧ (65536:Int) ≤ 0)
    ∧ (Y_usb_control_transfer 0 0 0 0 0 65536 1000 ⟨0, 0, false⟩).raised = none
    ∧ (Y_usb_control_transfer 0 0 0 0 0 65536 1000 ⟨0, 0, false⟩).calls ≠ [] := by
  decide

/-- C5 amended: the length validation applies to the 16-bit-masked length
`L = length mod 2^16` (which is never negative, so the `length < 0` branch
is dead): `L > size` raises the invalid-argument error before any native
call; `L ≤ size` issues exactly one native call carrying `wLength = L`, and
any raise past that point is the translated transfer failure of the
subroutine convention, not a validation error. -/
theorem C5_length_validation_amended
    (size typ request value index lengthArg timeout : Int) (env : TransferEnv) :
    (lengthArg % 65536 > size →
      (Y_usb_control_transfer size typ request value index lengthArg timeout env).raised
        = some "length must be at most the size of the data"
      ∧ (Y_usb_control_transfer size typ request value index lengthArg timeout env).calls = [])
    ∧ (lengthArg % 65536 ≤ size →
      (Y_usb_control_transfer size typ request value index lengthArg timeout env).calls.map
          (fun c => c.wLength) = [lengthArg % 65536]
      ∧ ((Y_usb_control_transfer size typ request value index lengthArg timeout env).raised.isSome
          = true → env.nativeRet < 0 ∧ env.isSubroutine = true)) := by
  have h0 : ¬ (lengthArg % 65536 < 0) := by
    have := Int.emod_nonneg lengthArg (by decide : (65536:Int) ≠ 0)
    omega
  unfold Y_usb_control_transfer
  dsimp only
  rw [if_neg h0]
  constructor
  · intro h
    rw [if_pos h]
    exact ⟨rfl, rfl⟩
  · intro h
    rw [if_neg (by omega : ¬ lengthArg % 65536 > size)]
    split
    · simp_all
    · simp

/-- C5 witness: supplied length 3 over a 1-byte buffer raises the bound
error with no native call; over a 5-byte buffer one native call with
`wLength = 3` is issued. -/
theorem C5_length_validation_amended_witness :
    ((Y_usb_control_transfer 1 0 0 0 0 3 50 ⟨0, 0, false⟩).raised
      = some "length must be at most the size of the data"
     ∧ (Y_usb_control_transfer 1 0 0 0 0 3 50 ⟨0, 0, false⟩).calls = [])
    ∧ (Y_usb_control_transfer 5 0 0 0 0 3 50 ⟨0, 0, false⟩).calls.map
        (fun c => c.wLength) = [3] := by
  constructor
  · exact (C5_length_validation_amended 1 0 0 0 0 3 50 ⟨0, 0, false⟩).1 (by decide)
  · have h := ((C5_length_validation_amended 5 0 0 0 0 3 50 ⟨0, 0, false⟩).2 (by decide)).1
    have h2 : (3:Int) % 65536 = 3 := by decide
    rw [h2] at h
    exact h

/-- C6 counterexample: the claim fails for the status-returning entry
point. `usb_get_string` with index 0 (which is ≤ 0) still issues the native
string-descriptor call and returns the buffer contents, not the placeholder
"unknown": `Y_usb_get_string` has no index ≤ 0 short-circuit. -/
theorem C6_get_string_entry_counterexample :
    ((0:Int) ≤ 0)
    ∧ (Y_usb_get_string 0 ⟨0, "abc"⟩).nativeCalls ≠ []
    ∧ (Y_usb_get_string 0 ⟨0, "abc"⟩).result ≠ some "unknown" := by
  decide

/-- C6 amended: only the summary-side resolver `get_string` short-circuits
an index ≤ 0 to the fixed placeholder "unknown" with no native call; the
`usb_get_string` entry point always issues exactly one native call, with
the index masked to 8 bits. -/
theorem C6_placeholder_amended (index : Int) (env : StringEnv) (h : index ≤ 0) :
    get_string index env = ⟨none, some "unknown", none, [], false⟩
    ∧ (Y_usb_get_string index env).nativeCalls = [index % 256] := by
  unfold get_string Y_usb_get_string
  rw [if_pos h]
  refine ⟨rfl, ?_⟩
  split <;> rfl

/-- C6 witness: index 0 yields the placeholder from `get_string` with no
native call, while `Y_usb_get_string` at index −3 issues one native call
with the masked index 253. -/
theorem C6_placeholder_amended_witness :
    get_string 0 ⟨0, "abc"⟩ = ⟨none, some "unknown", none, [], false⟩
    ∧ (Y_usb_get_string (-3) ⟨0, "abc"⟩).nativeCalls = [253] := by
  constructor
  · exact (C6_placeholder_amended 0 ⟨0, "abc"⟩ (by decide)).1
  · have h := (C6_placeholder_amended (-3) ⟨0, "abc"⟩ (by decide)).2
    have h2 : (-3:Int) % 256 = 253 := by decide
    rw [h2] at h
    exact h

/-- C7: `open_device(bus, port)` pushes nil (raising nothing) when no
enumerated device matches `(bus, port)`; when a match exists (and the
native open and descriptor calls succeed for it) it returns a handle whose
read-only members `bus`, `port`, `address`, `vendor`, `product`,
`manufacturer`, `serial` equal the matched device's bus number, port
number, device address, and its descriptor's `idVendor`, `idProduct`,
`iManufacturer`, `iSerialNumber`. -/
theorem C7_open_device_matching (bus port bus2 port2 : Int) (env : OpenEnv)
    (i : Nat) (d : Device)
    (hfind : findFirst bus port env.devices = some (i, d))
    (hopen : 0 ≤ env.openResult i)
    (hdesc : env.descResult i = 0)
    (habsent : ∀ d2 ∈ env.devices, matchDev bus2 port2 d2 = false) :
    Y_usb_open_device bus2 port2 env = ⟨none, none, true, 0⟩
    ∧ ∃ o, (Y_usb_open_device bus port env).obj = some o
        ∧ (Y_usb_open_device bus port env).raised = none
        ∧ ydev_extract o "bus" = some ((d.busNumber : Int))
        ∧ ydev_extract o "port" = some ((d.portNumber : Int))
        ∧ ydev_extract o "address" = some ((d.deviceAddress : Int))
        ∧ ydev_extract o "vendor" = some ((d.descriptor.idVendor : Int))
        ∧ ydev_extract o "product" = some ((d.descriptor.idProduct : Int))
        ∧ ydev_extract o "manufacturer" = some ((d.descriptor.iManufacturer : Int))
        ∧ ydev_extract o "serial" = some ((d.descriptor.iSerialNumber : Int)) := by
  have hmatch := findFirst_matches bus port env.devices i d hfind
  have hbus : (d.busNumber : Int) = bus := by
    simp [matchDev] at hmatch
    exact hmatch.1
  have hport : (d.portNumber : Int) = port := by
    simp [matchDev] at hmatch
    exact hmatch.2
  constructor
  · unfold Y_usb_open_device
    rw [findFirst_of_no_match bus2 port2 env.devices habsent]
  · refine ⟨⟨bus, port, (d.deviceAddress : Int), d.descriptor⟩,
      ?_, ?_, ?_, ?_, ?_, ?_, ?_, ?_, ?_⟩
    · unfold Y_usb_open_device
      rw [hfind]
      dsimp only
      rw [if_neg (by omega), if_neg (by simp [hdesc])]
    · unfold Y_usb_open_device
      rw [hfind]
      dsimp only
      rw [if_neg (by omega), if_neg (by simp [hdesc])]
    · simp [ydev_extract, hbus, (by decide : "bus".front = 'b')]
    · simp [ydev_extract, hport, (by decide : "port".front = 'p')]
    · simp [ydev_extract, (by decide : "address".front = 'a')]
    · simp [ydev_extract, (by decide : "vendor".front = 'v')]
    · simp [ydev_extract, (by decide : "product".front = 'p')]
    · simp [ydev_extract, (by decide : "manufacturer".front = 'm')]
    · simp [ydev_extract, (by decide : "serial".front = 's')]

/-- C7 witness: a one-device list at (bus 1, port 2): opening (9, 9) pushes
nil; opening (1, 2) yields a handle whose members reproduce the fabricated
descriptor. -/
theorem C7_open_device_matching_witness :
    Y_usb_open_device 9 9 ⟨[⟨1, 2, 3, ⟨10, 11, 12, 13, 14⟩⟩], fun _ => 0, fun _ => 0⟩
      = ⟨none, none, true, 0⟩
    ∧ ∃ o, (Y_usb_open_device 1 2
          ⟨[⟨1, 2, 3, ⟨10, 11, 12, 13, 14⟩⟩], fun _ => 0, fun _ => 0⟩).obj = some o
        ∧ (Y_usb_open_device 1 2
            ⟨[⟨1, 2, 3, ⟨10, 11, 12, 13, 14⟩⟩], fun _ => 0, fun _ => 0⟩).raised = none
        ∧ ydev_extract o "bus" = some ((1:Nat) : Int)
        ∧ ydev_extract o "port" = some ((2:Nat) : Int)
        ∧ ydev_extract o "address" = some ((3:Nat) : Int)
        ∧ ydev_extract o "vendor" = some ((10:Nat) : Int)
        ∧ ydev_extract o "product" = some ((11:Nat) : Int)
        ∧ ydev_extract o "manufacturer" = some ((12:Nat) : Int)
        ∧ ydev_extract o "serial" = some ((14:Nat) : Int) := by
  exact C7_open_device_matching 1 2 9 9
    ⟨[⟨1, 2, 3, ⟨10, 11, 12, 13, 14⟩⟩], fun _ => 0, fun _ => 0⟩ 0
    ⟨1, 2, 3, ⟨10, 11, 12, 13, 14⟩⟩ (by decide) (by decide) (by decide)
    (by intro d2 hd2
        simp only [List.mem_singleton] at hd2
        subst hd2
        decide)

/-- C8: `free_dev_list` zeroes a (non-negative) held count and is the
identity on an empty state; after `load_device_list` (from an unused empty
state, with a successful enumeration of `n ≥ 0` devices) a first
`free_dev_list` leaves the count at 0 with at most one native free of the
loaded list, and a second `free_dev_list` changes nothing — the same list
is never freed twice. -/
theorem C8_enumeration_idempotence (s : EnumState) (n : Int)
    (hs : s.devCount = 0) (hn : 0 ≤ n) :
    (∀ t : EnumState, 0 ≤ t.devCount → (free_dev_list t).devCount = 0)
    ∧ (∀ t : EnumState, t.devCount = 0 → free_dev_list t = t)
    ∧ (free_dev_list (free_dev_list ((load_device_list n s).1))
        = free_dev_list ((load_device_list n s).1))
    ∧ (free_dev_list ((load_device_list n s).1)).devCount = 0
    ∧ (free_dev_list ((load_device_list n s).1)).freeCalls
        = s.freeCalls + (if 0 < n then 1 else 0)
    ∧ (load_device_list n s).2 = none := by
  have hfree : ∀ t : EnumState, 0 ≤ t.devCount → (free_dev_list t).devCount = 0 := by
    intro t ht
    unfold free_dev_list
    split
    · simp
    · simp_all
      omega
  have hnoop : ∀ t : EnumState, t.devCount = 0 → free_dev_list t = t := by
    intro t ht
    unfold free_dev_list
    rw [if_neg (by omega)]
  have hload : (load_device_list n s).1 = ⟨n, s.freeCalls⟩ := by
    unfold load_device_list free_dev_list
    rw [if_neg (by omega : ¬ s.devCount > 0)]
    split <;> simp
  refine ⟨hfree, hnoop, ?_, ?_, ?_, ?_⟩
  · rw [hload]
    exact hnoop _ (hfree ⟨n, s.freeCalls⟩ hn)
  · rw [hload]
    exact hfree ⟨n, s.freeCalls⟩ hn
  · rw [hload]
    unfold free_dev_list
    split <;> simp
  · unfold load_device_list
    rw [if_neg (by omega)]

/-- C8 witness: from an empty state with 5 earlier frees, loading 2 devices
then freeing twice ends with count 0, exactly one additional native free,
and an unchanged state on the second free. -/
theorem C8_enumeration_idempotence_witness :
    (free_dev_list (free_dev_list ((load_device_list 2 ⟨0, 5⟩).1))
      = free_dev_list ((load_device_list 2 ⟨0, 5⟩).1))
    ∧ (free_dev_list ((load_device_list 2 ⟨0, 5⟩).1)).devCount = 0
    ∧ (free_dev_list ((load_device_list 2 ⟨0, 5⟩).1)).freeCalls = 6 := by
  have h := C8_enumeration_idempotence ⟨0, 5⟩ 2 rfl (by decide)
  refine ⟨h.2.2.1, h.2.2.2.1, ?_⟩
  have h2 := h.2.2.2.2.1
  simpa using h2

/-- C9 counterexample: the claim misplaces the defect. At a descriptor with
`iManufacturer = 1`, `idProduct = 2`, `iProduct = 7` and a string oracle
distinguishing the indices, the Manufacturer line of the summary is NOT the
resolution of `idProduct` (it resolves `iManufacturer`, so the claim as
stated is false); the line that resolves `idProduct` where the `iProduct`
string index was intended is the Product line. -/
theorem C9_summary_index_counterexample :
    (¬ ((summary_strings ⟨4369, 2, 1, 7, 3⟩
          (fun i => if i = 1 then ⟨0, "MANU"⟩ else if i = 2 then ⟨0, "PROD"⟩
                    else ⟨0, "OTHER"⟩)).1
        = get_string ((2:Nat) : Int)
            ((fun i => if i = 1 then ⟨0, "MANU"⟩ else if i = 2 then ⟨0, "PROD"⟩
                       else ⟨0, "OTHER"⟩) ((2:Nat) : Int))))
    ∧ (¬ ((summary_strings ⟨4369, 2, 1, 7, 3⟩
          (fun i => if i = 1 then ⟨0, "MANU"⟩ else if i = 2 then ⟨0, "PROD"⟩
                    else ⟨0, "OTHER"⟩)).2.1
        = get_string ((7:Nat) : Int)
            ((fun i => if i = 1 then ⟨0, "MANU"⟩ else if i = 2 then ⟨0, "PROD"⟩
                       else ⟨0, "OTHER"⟩) ((7:Nat) : Int)))) := by
  decide

/-- C9 amended: in the device-summary output it is the PRODUCT print path
that passes the product-ID field `idProduct` to string resolution where the
product string-descriptor index `iProduct` was intended; the manufacturer
print path correctly passes `iManufacturer`, and the serial path
`iSerialNumber`. -/
theorem C9_summary_indices_amended (desc : DeviceDescriptor) (strs : Int → StringEnv) :
    (summary_strings desc strs).1
      = get_string (desc.iManufacturer : Int) (strs (desc.iManufacturer : Int))
    ∧ (summary_strings desc strs).2.1
      = get_string (desc.idProduct : Int) (strs (desc.idProduct : Int))
    ∧ (summary_strings desc strs).2.2
      = get_string (desc.iSerialNumber : Int) (strs (desc.iSerialNumber : Int)) :=
  ⟨rfl, rfl, rfl⟩

/-- C10: in the summary-side resolver, for every index > 0 the failure
branch — close the handle, then raise the translated error — is taken
whenever the native string-descriptor call returns ANY nonzero code
(positive byte counts included); only a return of exactly 0 yields the
buffered string with the handle left open. -/
theorem C10_get_string_failure_branch (index : Int) (env : StringEnv) (h : 0 < index) :
    (env.nativeRet ≠ 0 →
      (get_string index env).handleClosed = true
      ∧ (get_string index env).raised = some (failure none env.nativeRet)
      ∧ (get_string index env).result = none)
    ∧ (env.nativeRet = 0 →
      (get_string index env).raised = none
      ∧ (get_string index env).result = some env.nativeStr
      ∧ (get_string index env).handleClosed = false) := by
  unfold get_string
  rw [if_neg (by omega : ¬ index ≤ 0)]
  constructor
  · intro h2
    rw [if_pos h2]
    exact ⟨rfl, rfl, rfl⟩
  · intro h2
    rw [if_neg (by simp [h2])]
    exact ⟨rfl, rfl, rfl⟩

/-- C10 witness: a native return of 3 — the byte count of a successful
native call — still closes the handle and raises; only a return of 0
yields the buffered string. -/
theorem C10_get_string_failure_branch_witness :
    (get_string 1 ⟨3, "str"⟩).handleClosed = true
    ∧ (get_string 1 ⟨3, "str"⟩).result = none
    ∧ (get_string 1 ⟨0, "str"⟩).result = some "str"
    ∧ (get_string 1 ⟨0, "str"⟩).handleClosed = false := by
  refine ⟨?_, ?_, ?_, ?_⟩
  · exact ((C10_get_string_failure_branch 1 ⟨3, "str"⟩ (by decide)).1 (by decide)).1
  · exact ((C10_get_string_failure_branch 1 ⟨3, "str"⟩ (by decide)).1 (by decide)).2.2
  · exact ((C10_get_string_failure_branch 1 ⟨0, "str"⟩ (by decide)).2 (by decide)).2.1
  · exact ((C10_get_string_failure_branch 1 ⟨0, "str"⟩ (by decide)).2 (by decide)).2.2
